import Mathlib

/-!
Shallow embedding of `src/password_analyzer.py` (class `PasswordAnalyzer`)
from the Password-Security-Lab repository, with theorems settling the
frozen claims about it.

Modelling conventions:
* Passwords are Lean `String`s (sequences of Unicode code points), matching
  Python `str`; `String.length` counts code points exactly like Python `len`.
* The Python regex classes `[a-z]`, `[A-Z]`, `\d`, the special-character
  class and `str.lower` are modelled over ASCII.  The regex wildcard `.` in
  the repeated-character pattern is modelled as matching any character
  (Python `.` does not match a newline; passwords are modelled as
  newline-free).
* Every float appearing in the scoring and crack-time arithmetic (`7.5`,
  the attack speeds, the divisions by `2` and by a speed) is a dyadic
  rational and the computations stay exact in IEEE doubles on all branch
  points the claims touch, so scores and times are modelled in `ℚ`.
* `self.entropy` is the real number `length * log2 charset_size`; the
  scorer only compares it against the integer thresholds 80/60/40/28,
  which is equivalent to the exact natural-number comparison
  `2 ^ t ≤ charset_size ^ length` used by `entropy_bonus` below (the
  equivalence is proved in `le_calculate_entropy_iff`).
* `raise ValueError(...)` in `estimate_crack_time` is modelled by
  `Except.error`.
-/

/-- The four character-set flags of `PasswordAnalyzer._identify_char_sets`
(the keys of the Python dict `char_sets`). -/
structure CharSets where
  lowercase : Bool
  uppercase : Bool
  digits : Bool
  special : Bool
  deriving DecidableEq

/-- The 32 characters of the special-character regex class in
`_identify_char_sets`, listed by code point: bang, at, hash, dollar,
percent, caret, ampersand, star, parens, underscore, plus, minus, equals,
square brackets, curly braces, semicolon, colon, single and double quote,
comma, period, angle brackets, question mark, slash, backslash, pipe,
backquote, tilde. -/
def special_chars : List Char :=
  [33, 64, 35, 36, 37, 94, 38, 42, 40, 41, 95, 43, 45, 61, 91, 93, 123, 125,
   59, 58, 39, 34, 44, 46, 60, 62, 63, 47, 92, 124, 96, 126].map Char.ofNat

/-- `PasswordAnalyzer.COMMON_PASSWORDS` (a Python set; modelled as a list,
only membership is ever used). -/
def COMMON_PASSWORDS : List String :=
  ["password", "123456", "12345678", "qwerty", "abc123", "monkey",
   "letmein", "trustno1", "dragon", "baseball", "iloveyou", "master",
   "sunshine", "ashley", "bailey", "shadow", "superman", "qazwsx"]

/-- `PasswordAnalyzer.ATTACK_SPEEDS`: hashes per second per algorithm.
The Python values `1e15`, `1.8e11`, `6.5e10`, `8.5e4`, `1e3` are the exact
integers below. -/
def ATTACK_SPEEDS : List (String × ℚ) :=
  [("plaintext", 1000000000000000),
   ("md5", 180000000000),
   ("sha256", 65000000000),
   ("bcrypt", 85000),
   ("argon2", 1000)]

/-- `PasswordAnalyzer._identify_char_sets`. -/
def identify_char_sets (p : String) : CharSets :=
  { lowercase := p.data.any Char.isLower
    uppercase := p.data.any Char.isUpper
    digits := p.data.any (fun c => c.isDigit)
    special := p.data.any (fun c => special_chars.contains c) }

/-- The charset-size sum computed (identically) in `_calculate_entropy`
and in `estimate_crack_time`: 26 + 26 + 10 + 32 for the detected classes. -/
def charset_size (cs : CharSets) : ℕ :=
  (if cs.lowercase then 26 else 0) + (if cs.uppercase then 26 else 0) +
    (if cs.digits then 10 else 0) + (if cs.special then 32 else 0)

/-- `sum(self.char_sets.values())` in `_calculate_strength_score`. -/
def char_type_count (cs : CharSets) : ℕ :=
  (if cs.lowercase then 1 else 0) + (if cs.uppercase then 1 else 0) +
    (if cs.digits then 1 else 0) + (if cs.special then 1 else 0)

/-- Python `str.lower` (ASCII model, like `Char.toLower`). -/
def str_lower (p : String) : String :=
  ⟨p.data.map Char.toLower⟩

/-- `self.password.lower() in self.COMMON_PASSWORDS`. -/
def is_common (p : String) : Bool :=
  COMMON_PASSWORDS.contains (str_lower p)

/-- The regex `(.)\1{2,}`: three or more identical consecutive characters. -/
def has_triple_repeat : List Char → Bool
  | a :: b :: c :: rest => (a == b && b == c) || has_triple_repeat (b :: c :: rest)
  | _ => false

/-- `starts_with pat l`: `pat` is an initial segment of `l`. -/
def starts_with : List Char → List Char → Bool
  | [], _ => true
  | _ :: _, [] => false
  | a :: pat, b :: l => a == b && starts_with pat l

/-- `contains_seq pat l`: the (nonempty) pattern `pat` occurs as a
contiguous run inside `l` — the model of `re.search` for a literal
alternative. -/
def contains_seq (pat : List Char) : List Char → Bool
  | [] => pat.isEmpty
  | b :: l => starts_with pat (b :: l) || contains_seq pat l

/-- The 24 ascending-letter windows of the second pattern regex in
`_has_simple_patterns`. -/
def letter_patterns : List (List Char) :=
  ["abc", "bcd", "cde", "def", "efg", "fgh", "ghi", "hij", "ijk", "jkl",
   "klm", "lmn", "mno", "nop", "opq", "pqr", "qrs", "rst", "stu", "tuv",
   "uvw", "vwx", "wxy", "xyz"].map String.data

/-- The 8 ascending-digit windows of the third pattern regex in
`_has_simple_patterns`. -/
def digit_patterns : List (List Char) :=
  ["012", "123", "234", "345", "456", "567", "678", "789"].map String.data

/-- The keyboard-row substrings of the fourth pattern regex in
`_has_simple_patterns`. -/
def keyboard_patterns : List (List Char) :=
  ["qwert", "asdf", "zxcv"].map String.data

/-- `PasswordAnalyzer._has_simple_patterns`: any of the four regexes found
in the lowercased password. -/
def has_simple_patterns (p : String) : Bool :=
  let lower := (str_lower p).data
  has_triple_repeat lower ||
    letter_patterns.any (fun pat => contains_seq pat lower) ||
    digit_patterns.any (fun pat => contains_seq pat lower) ||
    keyboard_patterns.any (fun pat => contains_seq pat lower)

/-- `PasswordAnalyzer._has_repeated_chars`: the regex `(.)\1{2,}` on the
original (not lowercased) password. -/
def has_repeated_chars (p : String) : Bool :=
  has_triple_repeat p.data

/-- `PasswordAnalyzer._calculate_entropy`: `length * log2(charset_size)`,
and `0` when no character class was detected. -/
noncomputable def calculate_entropy (p : String) : ℝ :=
  let c := charset_size (identify_char_sets p)
  if c = 0 then 0 else (p.length : ℝ) * Real.logb 2 (c : ℝ)

/-- The entropy elif-chain of `_calculate_strength_score`
(`if self.entropy >= 80: ... 60 ... 40 ... 28`).  The float comparison
`length * log2(charset) >= t` is embedded as the exact natural-number
comparison `2 ^ t ≤ charset ^ length`; `le_calculate_entropy_iff` below
proves the two equivalent (for `charset = 0` the source returns entropy
`0`, and here `charset ^ length ≤ 1 < 2 ^ t`, so no bonus either way). -/
def entropy_bonus (p : String) : ℚ :=
  let c := charset_size (identify_char_sets p)
  if 2 ^ 80 ≤ c ^ p.length then 20
  else if 2 ^ 60 ≤ c ^ p.length then 15
  else if 2 ^ 40 ≤ c ^ p.length then 10
  else if 2 ^ 28 ≤ c ^ p.length then 5
  else 0

/-- Python `max` on two rationals (kernel-reducible, unlike the lattice
`⊔`; `qmax_eq` below identifies it with `max`). -/
def qmax (a b : ℚ) : ℚ := if a ≤ b then b else a

/-- Python `min` on two rationals (kernel-reducible; see `qmin_eq`). -/
def qmin (a b : ℚ) : ℚ := if a ≤ b then a else b

/-- `PasswordAnalyzer._calculate_strength_score`, translated step by step.
Note the Python function is annotated `-> int` but actually returns a float:
`score += char_type_count * 7.5` turns `score` into a float and nothing
ever rounds it, so the model's codomain is `ℚ`. -/
def calculate_strength_score (p : String) : ℚ :=
  let cs := identify_char_sets p
  -- length scoring (up to 35 points)
  let score1 : ℚ :=
    if p.length ≥ 16 then 35
    else if p.length ≥ 12 then 25
    else if p.length ≥ 8 then 15
    else if p.length ≥ 6 then 5
    else 0
  -- character diversity (up to 30 points)
  let score2 := score1 + (char_type_count cs : ℚ) * 7.5
  -- entropy bonus (up to 20 points)
  let score3 := score2 + entropy_bonus p
  -- penalize common passwords
  let score4 := if is_common p then qmax 0 (score3 - 50) else score3
  -- penalize simple patterns
  let score5 := if has_simple_patterns p then qmax 0 (score4 - 20) else score4
  -- bonus for good practices (up to 15 points)
  let score6 := if p.length ≥ 12 ∧ char_type_count cs ≥ 3 then score5 + 10 else score5
  let score7 := if has_repeated_chars p then score6 else score6 + 5
  qmin 100 (qmax 0 score7)

/-- `PasswordAnalyzer._determine_strength_level` as a function of the
score. -/
def determine_strength_level (strength_score : ℚ) : String :=
  if strength_score ≥ 80 then "Very Strong"
  else if strength_score ≥ 60 then "Strong"
  else if strength_score ≥ 40 then "Moderate"
  else if strength_score ≥ 20 then "Weak"
  else "Very Weak"

/-- `self.strength_level`. -/
def strength_level (p : String) : String :=
  determine_strength_level (calculate_strength_score p)

/-- The dict returned by `PasswordAnalyzer.estimate_crack_time`. -/
structure CrackEstimate where
  algorithm : String
  attack_speed : ℚ
  combinations : ℕ
  time_seconds : ℚ
  time_human : String
  deriving DecidableEq

/-- Models the Python two-decimal float format used in `_format_time`
(for example `f"13.59 hours"`).  Python formats the IEEE double with
round-half-even; the decimal rendering is abstracted as rounding the exact
rational to hundredths (only the branch labels, in particular `"Instant"`,
are load-bearing for the claims). -/
def fmt2 (x : ℚ) : String :=
  let n : ℤ := ⌊x * 100 + 1 / 2⌋
  let frac := (n % 100).natAbs
  toString (n / 100) ++ "." ++ (if frac < 10 then "0" else "") ++ toString frac

/-- Models the Python scientific-notation format `f"...:.2e"` of the last
`_format_time` branch (mantissa to two decimals, two-digit exponent). -/
def fmt_sci (x : ℚ) : String :=
  let e := Nat.log 10 ⌊x⌋.natAbs
  fmt2 (x / (10 : ℚ) ^ e) ++ "e+" ++ (if e < 10 then "0" else "") ++ toString e

/-- `PasswordAnalyzer._format_time`: seconds to a human-readable string;
first matching threshold wins. -/
def format_time (seconds : ℚ) : String :=
  if seconds < 1 then "Instant"
  else if seconds < 60 then fmt2 seconds ++ " seconds"
  else if seconds < 3600 then fmt2 (seconds / 60) ++ " minutes"
  else if seconds < 86400 then fmt2 (seconds / 3600) ++ " hours"
  else if seconds < 31536000 then fmt2 (seconds / 86400) ++ " days"
  else if seconds < 31536000 * 1000 then fmt2 (seconds / 31536000) ++ " years"
  else if seconds < 31536000 * 1000000 then
    fmt2 (seconds / (31536000 * 1000)) ++ " thousand years"
  else if seconds < 31536000 * 1000000000 then
    fmt2 (seconds / (31536000 * 1000000)) ++ " million years"
  else if seconds < 31536000 * 1000000000000 then
    fmt2 (seconds / (31536000 * 1000000000)) ++ " billion years"
  else fmt_sci (seconds / (31536000 * 1000000000000)) ++ " trillion years"

/-- The charset size recomputed inside `estimate_crack_time` (same sum as
`_calculate_entropy`), with the fallback
`if charset_size == 0: charset_size = 26`. -/
def crack_charset_size (p : String) : ℕ :=
  let cs := charset_size (identify_char_sets p)
  if cs = 0 then 26 else cs

/-- `total_combinations` in `estimate_crack_time`: `charset_size ** length`,
overridden to `1` for a common password. -/
def total_combinations (p : String) : ℕ :=
  let tc := crack_charset_size p ^ p.length
  if is_common p then 1 else tc

/-- `PasswordAnalyzer.estimate_crack_time`.  An unknown algorithm name
raises `ValueError(f"Unknown algorithm: {algorithm}")`, modelled as
`Except.error`; otherwise `avg_attempts = total_combinations / 2` and
`time_seconds = avg_attempts / attack_speed` (exact in `ℚ`). -/
def estimate_crack_time (p : String) (algorithm : String) :
    Except String CrackEstimate :=
  match ATTACK_SPEEDS.lookup algorithm with
  | none => Except.error ("Unknown algorithm: " ++ algorithm)
  | some attack_speed =>
    let avg_attempts : ℚ := (total_combinations p : ℚ) / 2
    let time_seconds := avg_attempts / attack_speed
    Except.ok
      { algorithm := algorithm
        attack_speed := attack_speed
        combinations := total_combinations p
        time_seconds := time_seconds
        time_human := format_time time_seconds }

/-- `PasswordAnalyzer.get_all_crack_times`: the five estimates in the fixed
order.  All five names are in `ATTACK_SPEEDS`, so the `Except` never fires;
`filterMap ∘ toOption` keeps the model total. -/
def get_all_crack_times (p : String) : List CrackEstimate :=
  ["plaintext", "md5", "sha256", "bcrypt", "argon2"].filterMap
    (fun algo => (estimate_crack_time p algo).toOption)

/-- Python `str.isalpha` (ASCII model): nonempty and all alphabetic. -/
def is_alpha (p : String) : Bool :=
  !p.data.isEmpty && p.data.all Char.isAlpha

/-- A single-quote character, for building suggestion strings. -/
def squote : String := String.mk [Char.ofNat 39]

/-- Suggestion strings of `get_enhancement_suggestions`, in source order. -/
def len_tip_low (n : ℕ) : String :=
  "📏 Increase length to at least 12 characters (current: " ++ toString n ++ ")"

/-- Second-tier length advice (12–15 characters). -/
def len_tip_mid (n : ℕ) : String :=
  "📏 Consider increasing length to 16+ characters for better security (current: "
    ++ toString n ++ ")"

/-- Missing-uppercase suggestion. -/
def upper_tip : String := "🔠 Add uppercase letters (A-Z)"

/-- Missing-lowercase suggestion. -/
def lower_tip : String := "🔡 Add lowercase letters (a-z)"

/-- Missing-digit suggestion. -/
def digit_tip : String := "🔢 Add numbers (0-9)"

/-- Missing-special-character suggestion. -/
def special_tip : String := "🔣 Add special characters (!@#$%^&*)"

/-- Common-password critical warning. -/
def common_tip : String :=
  "⚠️  CRITICAL: This is a commonly used password! Change it immediately!"

/-- Simple-pattern warning. -/
def pattern_tip : String :=
  "🔄 Avoid predictable patterns (abc, 123, aaa, keyboard patterns)"

/-- Repeated-character warning. -/
def repeat_tip : String :=
  "🚫 Avoid repeating the same character multiple times"

/-- Single-dictionary-word warning. -/
def dict_tip : String :=
  "📖 Avoid using single dictionary words - use passphrases or random characters"

/-- First best-practice tip (contains two single quotes, hence `squote`). -/
def bp_tip1 : String :=
  "💡 Best Practice: Use a passphrase (e.g., " ++ squote
    ++ "Correct-Horse-Battery-Staple-2024!" ++ squote ++ ")"

/-- Second best-practice tip. -/
def bp_tip2 : String :=
  "🔐 Best Practice: Use a password manager to generate and store strong passwords"

/-- Third best-practice tip. -/
def bp_tip3 : String :=
  "🔄 Best Practice: Never reuse passwords across different accounts"

/-- The affirmation emitted when no suggestion fired. -/
def excellent_tip : String :=
  "✅ Excellent password! Maintain this security level for all accounts."

/-- The sequence of conditional appends at the top of
`get_enhancement_suggestions`, before the best-practice block. -/
def suggestions_base (p : String) : List String :=
  let cs := identify_char_sets p
  (if p.length < 12 then [len_tip_low p.length]
   else if p.length < 16 then [len_tip_mid p.length] else [])
    ++ (if cs.uppercase = false then [upper_tip] else [])
    ++ (if cs.lowercase = false then [lower_tip] else [])
    ++ (if cs.digits = false then [digit_tip] else [])
    ++ (if cs.special = false then [special_tip] else [])
    ++ (if is_common p = true then [common_tip] else [])
    ++ (if has_simple_patterns p = true then [pattern_tip] else [])
    ++ (if has_repeated_chars p = true then [repeat_tip] else [])
    ++ (if 4 ≤ p.length ∧ is_alpha p = true then [dict_tip] else [])

/-- `PasswordAnalyzer.get_enhancement_suggestions`: the conditional list,
then the three best-practice tips if anything fired, else the single
affirmation. -/
def get_enhancement_suggestions (p : String) : List String :=
  let s1 := suggestions_base p
  let s2 := if 0 < s1.length then s1 ++ [bp_tip1, bp_tip2, bp_tip3] else s1
  if s2.length = 0 then s2 ++ [excellent_tip] else s2

/-! ## Helper lemmas -/

lemma qmax_eq (a b : ℚ) : qmax a b = max a b := by
  unfold qmax
  split
  · exact (max_eq_right (by assumption)).symm
  · exact (max_eq_left (le_of_not_le (by assumption))).symm

lemma qmin_eq (a b : ℚ) : qmin a b = min a b := by
  unfold qmin
  split
  · exact (min_eq_left (by assumption)).symm
  · exact (min_eq_right (le_of_not_le (by assumption))).symm

lemma charset_size_cases (cs : CharSets) :
    charset_size cs = 0 ∨ 10 ≤ charset_size cs := by
  rcases cs with ⟨l, u, d, s⟩
  cases l <;> cases u <;> cases d <;> cases s <;> decide

/-- The float comparison `self.entropy >= t` made by the scorer is
equivalent to the exact comparison `2 ^ t ≤ charset_size ^ length` used in
`entropy_bonus`. -/
lemma le_calculate_entropy_iff (p : String) (t : ℕ) (ht : 1 ≤ t) :
    ((t : ℝ) ≤ calculate_entropy p ↔
      2 ^ t ≤ charset_size (identify_char_sets p) ^ p.length) := by
  simp only [calculate_entropy]
  rcases charset_size_cases (identify_char_sets p) with h0 | h10
  · rw [h0, if_pos rfl]
    constructor
    · intro hle
      exfalso
      have h1 : (1 : ℝ) ≤ (t : ℝ) := by exact_mod_cast ht
      linarith
    · intro hle
      exfalso
      have h2 : (0 : ℕ) ^ p.length ≤ 1 := by
        rcases Nat.eq_zero_or_pos p.length with hl | hl
        · simp [hl]
        · simp [Nat.zero_pow hl]
      have h3 : 2 ≤ 2 ^ t := by
        calc 2 = 2 ^ 1 := by norm_num
        _ ≤ 2 ^ t := Nat.pow_le_pow_right (by norm_num) ht
      omega
  · have hne : ¬ charset_size (identify_char_sets p) = 0 := by omega
    rw [if_neg hne]
    have hcpos : (0 : ℝ) < (charset_size (identify_char_sets p) : ℝ) := by
      exact_mod_cast (by omega : 0 < charset_size (identify_char_sets p))
    rw [show (p.length : ℝ) * Real.logb 2 (charset_size (identify_char_sets p) : ℝ)
          = Real.logb 2 ((charset_size (identify_char_sets p) : ℝ) ^ p.length) from
        (Real.logb_pow 2 _ p.length).symm]
    rw [Real.le_logb_iff_rpow_le (by norm_num) (pow_pos hcpos p.length)]
    rw [Real.rpow_natCast]
    exact_mod_cast Iff.rfl

/-- Strict-inequality companion of `le_calculate_entropy_iff`. -/
lemma calculate_entropy_lt_iff (p : String) (t : ℕ) (ht : 1 ≤ t) :
    (calculate_entropy p < (t : ℝ) ↔
      charset_size (identify_char_sets p) ^ p.length < 2 ^ t) := by
  rw [← not_le, le_calculate_entropy_iff p t ht, not_le]

lemma score_Pass123 : calculate_strength_score "Pass123" = 45 / 2 := by
  have h1 : identify_char_sets "Pass123" = ⟨true, true, true, false⟩ := by decide
  have h2 : is_common "Pass123" = false := by decide
  have h3 : has_simple_patterns "Pass123" = true := by decide
  have h4 : has_repeated_chars "Pass123" = false := by decide
  have h5 : entropy_bonus "Pass123" = 10 := by decide
  have h6 : ("Pass123" : String).length = 7 := by decide
  simp only [calculate_strength_score, h1, h2, h3, h4, h5, h6, char_type_count]
  norm_num [qmax, qmin]

lemma score_password : calculate_strength_score "password" = 5 := by
  have h1 : identify_char_sets "password" = ⟨true, false, false, false⟩ := by decide
  have h2 : is_common "password" = true := by decide
  have h3 : has_simple_patterns "password" = false := by decide
  have h4 : has_repeated_chars "password" = false := by decide
  have h5 : entropy_bonus "password" = 5 := by decide
  have h6 : ("password" : String).length = 8 := by decide
  simp only [calculate_strength_score, h1, h2, h3, h4, h5, h6, char_type_count]
  norm_num [qmax, qmin]

lemma score_chbs :
    calculate_strength_score "correct-horse-battery-staple-2024" = 185 / 2 := by
  have h1 : identify_char_sets "correct-horse-battery-staple-2024"
      = ⟨true, false, true, true⟩ := by decide
  have h2 : is_common "correct-horse-battery-staple-2024" = false := by decide
  have h3 : has_simple_patterns "correct-horse-battery-staple-2024" = false := by decide
  have h4 : has_repeated_chars "correct-horse-battery-staple-2024" = false := by decide
  have h5 : entropy_bonus "correct-horse-battery-staple-2024" = 20 := by decide
  have h6 : ("correct-horse-battery-staple-2024" : String).length = 33 := by decide
  simp only [calculate_strength_score, h1, h2, h3, h4, h5, h6, char_type_count]
  norm_num [qmax, qmin]

lemma score_empty : calculate_strength_score "" = 5 := by
  have h1 : identify_char_sets "" = ⟨false, false, false, false⟩ := by decide
  have h2 : is_common "" = false := by decide
  have h3 : has_simple_patterns "" = false := by decide
  have h4 : has_repeated_chars "" = false := by decide
  have h5 : entropy_bonus "" = 0 := by decide
  have h6 : ("" : String).length = 0 := by decide
  simp only [calculate_strength_score, h1, h2, h3, h4, h5, h6, char_type_count]
  norm_num [qmax, qmin]

/-! ## Claims C1, C2, C3, C8 -/

/-- C1, counterexample: analyzing "Pass123" does NOT yield a strength
score of 42 with level "Moderate" — the code applies the −20
simple-pattern penalty (the substring "123") that the claim says is
absent, and it never rounds, giving 22.5 and "Weak". -/
theorem C1_counterexample :
    ¬(calculate_strength_score "Pass123" = 42 ∧
      strength_level "Pass123" = "Moderate") := by
  rintro ⟨h, -⟩
  rw [score_Pass123] at h
  norm_num at h

/-- C1, amended: analyzing "Pass123" yields length 7, char_sets
{lowercase, uppercase, digits true; special false}, entropy
7·log2(62) ≈ 41.68 bits (between the 40 and 60 thresholds, so the +10
entropy component), but the simple-pattern check matches the substring
"123", so the score is 5 + 22.5 + 10 − 20 + 5 = 22.5, returned unrounded
(no flooring happens anywhere), with strength_level "Weak". -/
theorem C1_pass123_amended :
    ("Pass123" : String).length = 7 ∧
    identify_char_sets "Pass123" = ⟨true, true, true, false⟩ ∧
    calculate_entropy "Pass123" = 7 * Real.logb 2 62 ∧
    (40 : ℝ) ≤ calculate_entropy "Pass123" ∧
    calculate_entropy "Pass123" < 60 ∧
    has_simple_patterns "Pass123" = true ∧
    calculate_strength_score "Pass123" = 45 / 2 ∧
    strength_level "Pass123" = "Weak" := by
  have hcs : identify_char_sets "Pass123" = ⟨true, true, true, false⟩ := by decide
  refine ⟨by decide, hcs, ?_, ?_, ?_, by decide, score_Pass123, ?_⟩
  · simp only [calculate_entropy, hcs]
    norm_num [charset_size, show ("Pass123" : String).length = 7 from rfl]
  · have := (le_calculate_entropy_iff "Pass123" 40 (by norm_num)).mpr (by decide)
    exact_mod_cast this
  · have := (calculate_entropy_lt_iff "Pass123" 60 (by norm_num)).mpr (by decide)
    exact_mod_cast this
  · rw [strength_level, score_Pass123]
    norm_num [determine_strength_level]

/-- C2, counterexample: the strength score is not always an integer —
for "Pass123" it is 22.5 (the 7.5-per-class diversity component is added
as a fraction and never rounded). -/
theorem C2_counterexample :
    ¬ ∃ n : ℤ, calculate_strength_score "Pass123" = (n : ℚ) := by
  rintro ⟨n, hn⟩
  rw [score_Pass123] at hn
  have h45 : (45 : ℤ) = n * 2 := by exact_mod_cast (by linarith [hn] : (45 : ℚ) = n * 2)
  omega

/-- C2, amended: for every password the strength score lies in the closed
interval [0, 100] (the final clamp `min(100, max(0, score))`), though it
is a rational (a multiple of one half), not always an integer. -/
theorem C2_score_bounds (p : String) :
    0 ≤ calculate_strength_score p ∧ calculate_strength_score p ≤ 100 := by
  simp only [calculate_strength_score]
  rw [qmin_eq, qmax_eq]
  constructor
  · exact le_min (by norm_num) (le_max_left 0 _)
  · exact min_le_left _ _

/-- C3, counterexample: a score of 79 does not map to "Moderate" — by the
code's own thresholds 79 ≥ 60 gives "Strong". -/
theorem C3_counterexample : determine_strength_level 79 ≠ "Moderate" := by
  have h : determine_strength_level 79 = "Strong" := by
    norm_num [determine_strength_level]
  rw [h]
  decide

/-- C3, amended: the level mapper is a pure function of the score with
mutually exclusive descending thresholds (≥80 "Very Strong", ≥60 "Strong",
≥40 "Moderate", ≥20 "Weak", else "Very Weak"); in particular 79 maps to
"Strong" (not "Moderate") and 80 maps to "Very Strong". -/
theorem C3_level_thresholds (s : ℚ) :
    (80 ≤ s → determine_strength_level s = "Very Strong") ∧
    (60 ≤ s ∧ s < 80 → determine_strength_level s = "Strong") ∧
    (40 ≤ s ∧ s < 60 → determine_strength_level s = "Moderate") ∧
    (20 ≤ s ∧ s < 40 → determine_strength_level s = "Weak") ∧
    (s < 20 → determine_strength_level s = "Very Weak") ∧
    determine_strength_level 79 = "Strong" ∧
    determine_strength_level 80 = "Very Strong" := by
  refine ⟨?_, ?_, ?_, ?_, ?_,
    by norm_num [determine_strength_level], by norm_num [determine_strength_level]⟩
  · intro h
    unfold determine_strength_level
    rw [if_pos (show s ≥ 80 from h)]
  · rintro ⟨hlo, hhi⟩
    unfold determine_strength_level
    split_ifs with h1 h2 <;> first | rfl | (exfalso; simp only [ge_iff_le] at *) <;> linarith
  · rintro ⟨hlo, hhi⟩
    unfold determine_strength_level
    split_ifs with h1 h2 h3 <;> first | rfl | (exfalso; simp only [ge_iff_le] at *) <;> linarith
  · rintro ⟨hlo, hhi⟩
    unfold determine_strength_level
    split_ifs with h1 h2 h3 h4 <;> first | rfl | (exfalso; simp only [ge_iff_le] at *) <;>
      linarith
  · intro h
    unfold determine_strength_level
    split_ifs with h1 h2 h3 h4 <;> first | rfl | (exfalso; simp only [ge_iff_le] at *) <;>
      linarith

/-- Witness for `C3_level_thresholds` at concrete scores. -/
theorem C3_level_thresholds_witness :
    determine_strength_level 85 = "Very Strong" ∧
    determine_strength_level 70 = "Strong" ∧
    determine_strength_level 45 = "Moderate" ∧
    determine_strength_level 25 = "Weak" ∧
    determine_strength_level 5 = "Very Weak" :=
  ⟨(C3_level_thresholds 85).1 (by norm_num),
   (C3_level_thresholds 70).2.1 ⟨by norm_num, by norm_num⟩,
   (C3_level_thresholds 45).2.2.1 ⟨by norm_num, by norm_num⟩,
   (C3_level_thresholds 25).2.2.2.1 ⟨by norm_num, by norm_num⟩,
   (C3_level_thresholds 5).2.2.2.2.1 (by norm_num)⟩

/-- C8, counterexample: "correct-horse-battery-staple-2024" does not
score 100 — it has no uppercase letter, so only three character classes
(22.5 diversity points instead of 30), giving 35+22.5+20+10+5 = 92.5. -/
theorem C8_counterexample :
    calculate_strength_score "correct-horse-battery-staple-2024" ≠ 100 := by
  rw [score_chbs]
  norm_num

/-- C8, amended: "password" (common, length 8) scores exactly 5 (hence
≤ 5), while "correct-horse-battery-staple-2024" (33 characters, three
character classes, uncommon) scores 92.5, not 100. -/
theorem C8_spot_checks_amended :
    calculate_strength_score "password" = 5 ∧
    calculate_strength_score "password" ≤ 5 ∧
    calculate_strength_score "correct-horse-battery-staple-2024" = 185 / 2 :=
  ⟨score_password, le_of_eq score_password, score_chbs⟩

/-! ## Crack-time helper lemmas -/

lemma format_time_instant {x : ℚ} (h : x < 1) : format_time x = "Instant" := by
  unfold format_time
  rw [if_pos h]

lemma estimate_crack_time_known (p a : String) (s : ℚ)
    (h : ATTACK_SPEEDS.lookup a = some s) :
    estimate_crack_time p a = Except.ok
      { algorithm := a
        attack_speed := s
        combinations := total_combinations p
        time_seconds := (total_combinations p : ℚ) / 2 / s
        time_human := format_time ((total_combinations p : ℚ) / 2 / s) } := by
  unfold estimate_crack_time
  rw [h]

lemma get_all_crack_times_eq (p : String) :
    get_all_crack_times p = [
      { algorithm := "plaintext", attack_speed := 1000000000000000,
        combinations := total_combinations p,
        time_seconds := (total_combinations p : ℚ) / 2 / 1000000000000000,
        time_human := format_time ((total_combinations p : ℚ) / 2 / 1000000000000000) },
      { algorithm := "md5", attack_speed := 180000000000,
        combinations := total_combinations p,
        time_seconds := (total_combinations p : ℚ) / 2 / 180000000000,
        time_human := format_time ((total_combinations p : ℚ) / 2 / 180000000000) },
      { algorithm := "sha256", attack_speed := 65000000000,
        combinations := total_combinations p,
        time_seconds := (total_combinations p : ℚ) / 2 / 65000000000,
        time_human := format_time ((total_combinations p : ℚ) / 2 / 65000000000) },
      { algorithm := "bcrypt", attack_speed := 85000,
        combinations := total_combinations p,
        time_seconds := (total_combinations p : ℚ) / 2 / 85000,
        time_human := format_time ((total_combinations p : ℚ) / 2 / 85000) },
      { algorithm := "argon2", attack_speed := 1000,
        combinations := total_combinations p,
        time_seconds := (total_combinations p : ℚ) / 2 / 1000,
        time_human := format_time ((total_combinations p : ℚ) / 2 / 1000) }] := by
  unfold get_all_crack_times
  simp only [List.filterMap_cons, List.filterMap_nil,
    estimate_crack_time_known p "plaintext" 1000000000000000 (by decide),
    estimate_crack_time_known p "md5" 180000000000 (by decide),
    estimate_crack_time_known p "sha256" 65000000000 (by decide),
    estimate_crack_time_known p "bcrypt" 85000 (by decide),
    estimate_crack_time_known p "argon2" 1000 (by decide),
    Except.toOption]

/-! ## Claims C4, C5, C6, C9 -/

/-- C4: for every password the five crack-time estimates come back in the
fixed order plaintext, md5, sha256, bcrypt, argon2, and their
`time_seconds` are monotonically non-decreasing in that order (the attack
speeds are strictly decreasing and the combination count is shared). -/
theorem C4_crack_time_ordering (p : String) :
    (get_all_crack_times p).map CrackEstimate.algorithm =
      ["plaintext", "md5", "sha256", "bcrypt", "argon2"] ∧
    List.Chain' (fun a b => a ≤ b)
      ((get_all_crack_times p).map CrackEstimate.time_seconds) := by
  rw [get_all_crack_times_eq]
  refine ⟨rfl, ?_⟩
  simp only [List.map_cons, List.map_nil, List.chain'_cons, List.chain'_singleton,
    and_true]
  have hC : (0 : ℚ) ≤ (total_combinations p : ℚ) / 2 := by positivity
  refine ⟨?_, ?_, ?_, ?_⟩ <;>
    exact div_le_div_of_nonneg_left hC (by norm_num) (by norm_num)

/-- C5: for a password whose lowercased form is a known common password,
every one of the five estimates has its combination count overridden to
exactly 1, so `time_seconds = (1/2) / attack_speed` and `time_human` is
"Instant" for all five algorithms. -/
theorem C5_common_override (p : String) (h : is_common p = true) :
    get_all_crack_times p = [
      ⟨"plaintext", 1000000000000000, 1, 1 / 2 / 1000000000000000, "Instant"⟩,
      ⟨"md5", 180000000000, 1, 1 / 2 / 180000000000, "Instant"⟩,
      ⟨"sha256", 65000000000, 1, 1 / 2 / 65000000000, "Instant"⟩,
      ⟨"bcrypt", 85000, 1, 1 / 2 / 85000, "Instant"⟩,
      ⟨"argon2", 1000, 1, 1 / 2 / 1000, "Instant"⟩] := by
  have htc : total_combinations p = 1 := by
    unfold total_combinations
    rw [h]
    rfl
  rw [get_all_crack_times_eq]
  simp only [htc, Nat.cast_one]
  rw [format_time_instant (show (1 : ℚ) / 2 / 1000000000000000 < 1 by norm_num),
    format_time_instant (show (1 : ℚ) / 2 / 180000000000 < 1 by norm_num),
    format_time_instant (show (1 : ℚ) / 2 / 65000000000 < 1 by norm_num),
    format_time_instant (show (1 : ℚ) / 2 / 85000 < 1 by norm_num),
    format_time_instant (show (1 : ℚ) / 2 / 1000 < 1 by norm_num)]

/-- Witness for `C5_common_override` at the common password "password". -/
theorem C5_common_override_witness :
    get_all_crack_times "password" = [
      ⟨"plaintext", 1000000000000000, 1, 1 / 2 / 1000000000000000, "Instant"⟩,
      ⟨"md5", 180000000000, 1, 1 / 2 / 180000000000, "Instant"⟩,
      ⟨"sha256", 65000000000, 1, 1 / 2 / 65000000000, "Instant"⟩,
      ⟨"bcrypt", 85000, 1, 1 / 2 / 85000, "Instant"⟩,
      ⟨"argon2", 1000, 1, 1 / 2 / 1000, "Instant"⟩] :=
  C5_common_override "password" (by decide)

/-- C6: `estimate_crack_time` rejects every algorithm name outside the
five known keys with the `Unknown algorithm` error (never a default
estimate), and returns normally on each of the five known names. -/
theorem C6_unknown_algorithm (p a : String) :
    (a ∉ ["plaintext", "md5", "sha256", "bcrypt", "argon2"] →
      estimate_crack_time p a = Except.error ("Unknown algorithm: " ++ a)) ∧
    (a ∈ ["plaintext", "md5", "sha256", "bcrypt", "argon2"] →
      ∃ e, estimate_crack_time p a = Except.ok e) := by
  constructor
  · intro h
    simp only [List.mem_cons, List.not_mem_nil, or_false, not_or] at h
    obtain ⟨h1, h2, h3, h4, h5⟩ := h
    unfold estimate_crack_time
    have hl : ATTACK_SPEEDS.lookup a = none := by
      simp [ATTACK_SPEEDS, List.lookup,
        beq_eq_false_iff_ne.mpr h1, beq_eq_false_iff_ne.mpr h2,
        beq_eq_false_iff_ne.mpr h3, beq_eq_false_iff_ne.mpr h4,
        beq_eq_false_iff_ne.mpr h5]
    rw [hl]
  · intro h
    simp only [List.mem_cons, List.not_mem_nil, or_false] at h
    rcases h with rfl | rfl | rfl | rfl | rfl
    · exact ⟨_, estimate_crack_time_known p "plaintext" 1000000000000000 (by decide)⟩
    · exact ⟨_, estimate_crack_time_known p "md5" 180000000000 (by decide)⟩
    · exact ⟨_, estimate_crack_time_known p "sha256" 65000000000 (by decide)⟩
    · exact ⟨_, estimate_crack_time_known p "bcrypt" 85000 (by decide)⟩
    · exact ⟨_, estimate_crack_time_known p "argon2" 1000 (by decide)⟩

/-- Witness for `C6_unknown_algorithm`: the unknown name "sha1" errors,
the known name "md5" succeeds. -/
theorem C6_unknown_algorithm_witness :
    estimate_crack_time "Pass123" "sha1"
      = Except.error ("Unknown algorithm: " ++ "sha1") ∧
    ∃ e, estimate_crack_time "Pass123" "md5" = Except.ok e :=
  ⟨(C6_unknown_algorithm "Pass123" "sha1").1 (by decide),
   (C6_unknown_algorithm "Pass123" "md5").2 (by decide)⟩

/-- C9: the analyzer is total on the empty string: all char-set flags
false, entropy 0, strength score 5 (only the no-repeated-characters
bonus), level "Very Weak", and every crack-time estimate uses the
fallback charset 26, giving 26^0 = 1 combinations and "Instant" for all
five algorithms. -/
theorem C9_empty_string :
    identify_char_sets "" = ⟨false, false, false, false⟩ ∧
    calculate_entropy "" = 0 ∧
    calculate_strength_score "" = 5 ∧
    strength_level "" = "Very Weak" ∧
    crack_charset_size "" = 26 ∧
    total_combinations "" = 1 ∧
    get_all_crack_times "" = [
      ⟨"plaintext", 1000000000000000, 1, 1 / 2 / 1000000000000000, "Instant"⟩,
      ⟨"md5", 180000000000, 1, 1 / 2 / 180000000000, "Instant"⟩,
      ⟨"sha256", 65000000000, 1, 1 / 2 / 65000000000, "Instant"⟩,
      ⟨"bcrypt", 85000, 1, 1 / 2 / 85000, "Instant"⟩,
      ⟨"argon2", 1000, 1, 1 / 2 / 1000, "Instant"⟩] := by
  refine ⟨by decide, ?_, score_empty, ?_, by decide, by decide, ?_⟩
  · simp only [calculate_entropy]
    rw [show charset_size (identify_char_sets "") = 0 from by decide]
    simp
  · rw [strength_level, score_empty]
    norm_num [determine_strength_level]
  · rw [get_all_crack_times_eq]
    simp only [show total_combinations "" = 1 from by decide, Nat.cast_one]
    rw [format_time_instant (show (1 : ℚ) / 2 / 1000000000000000 < 1 by norm_num),
      format_time_instant (show (1 : ℚ) / 2 / 180000000000 < 1 by norm_num),
      format_time_instant (show (1 : ℚ) / 2 / 65000000000 < 1 by norm_num),
      format_time_instant (show (1 : ℚ) / 2 / 85000 < 1 by norm_num),
      format_time_instant (show (1 : ℚ) / 2 / 1000 < 1 by norm_num)]

/-! ## Suggestion-list helper lemmas -/

lemma ite_nil_eq_nil {c : Prop} [Decidable c] {a : String} :
    ((if c then [a] else []) = []) ↔ ¬c := by
  by_cases h : c <;> simp [h]

lemma ite_ite_nil_eq_nil {c₁ c₂ : Prop} [Decidable c₁] [Decidable c₂] {a b : String} :
    ((if c₁ then [a] else if c₂ then [b] else []) = []) ↔ ¬c₁ ∧ ¬c₂ := by
  by_cases h1 : c₁ <;> by_cases h2 : c₂ <;> simp [h1, h2]

lemma mem_ite_nil {c : Prop} [Decidable c] {a x : String} :
    (x ∈ if c then [a] else []) ↔ c ∧ x = a := by
  by_cases h : c <;> simp [h]

lemma mem_ite_ite_nil {c₁ c₂ : Prop} [Decidable c₁] [Decidable c₂] {a b x : String} :
    (x ∈ if c₁ then [a] else if c₂ then [b] else []) ↔
      (c₁ ∧ x = a) ∨ (¬c₁ ∧ c₂ ∧ x = b) := by
  by_cases h1 : c₁ <;> by_cases h2 : c₂ <;> simp [h1, h2]

lemma head_of_append {s t : String} {c : Char} (h : s.data.head? = some c) :
    (s ++ t).data.head? = some c := by
  rw [String.data_append]
  cases hs : s.data with
  | nil => rw [hs] at h; simp at h
  | cons a l => rw [hs] at h; simpa using h

lemma len_tip_low_head (n : ℕ) : (len_tip_low n).data.head? = some '📏' := by
  unfold len_tip_low
  exact head_of_append (head_of_append (by decide))

lemma len_tip_mid_head (n : ℕ) : (len_tip_mid n).data.head? = some '📏' := by
  unfold len_tip_mid
  exact head_of_append (head_of_append (by decide))

/-- A string whose first character is not the ruler emoji differs from
every first-tier length tip, whatever the interpolated length was. -/
lemma ne_len_tip_low {s : String} (h : s.data.head? ≠ some '📏') (n : ℕ) :
    s ≠ len_tip_low n := by
  intro he
  apply h
  rw [he]
  exact len_tip_low_head n

/-- Companion of `ne_len_tip_low` for the second-tier length tip. -/
lemma ne_len_tip_mid {s : String} (h : s.data.head? ≠ some '📏') (n : ℕ) :
    s ≠ len_tip_mid n := by
  intro he
  apply h
  rw [he]
  exact len_tip_mid_head n

/-- Membership in the conditional part of the suggestion list, slot by
slot. -/
lemma mem_suggestions_base {p x : String} :
    x ∈ suggestions_base p ↔
      (p.length < 12 ∧ x = len_tip_low p.length) ∨
      (¬(p.length < 12) ∧ p.length < 16 ∧ x = len_tip_mid p.length) ∨
      ((identify_char_sets p).uppercase = false ∧ x = upper_tip) ∨
      ((identify_char_sets p).lowercase = false ∧ x = lower_tip) ∨
      ((identify_char_sets p).digits = false ∧ x = digit_tip) ∨
      ((identify_char_sets p).special = false ∧ x = special_tip) ∨
      (is_common p = true ∧ x = common_tip) ∨
      (has_simple_patterns p = true ∧ x = pattern_tip) ∨
      (has_repeated_chars p = true ∧ x = repeat_tip) ∨
      ((4 ≤ p.length ∧ is_alpha p = true) ∧ x = dict_tip) := by
  simp only [suggestions_base, List.mem_append, mem_ite_nil, mem_ite_ite_nil, or_assoc]

/-- The conditional part of the suggestion list is empty exactly when all
of the "excellent password" conditions hold. -/
lemma suggestions_base_eq_nil_iff (p : String) :
    suggestions_base p = [] ↔
      (16 ≤ p.length ∧
       (identify_char_sets p).uppercase = true ∧
       (identify_char_sets p).lowercase = true ∧
       (identify_char_sets p).digits = true ∧
       (identify_char_sets p).special = true ∧
       is_common p = false ∧
       has_simple_patterns p = false ∧
       has_repeated_chars p = false ∧
       ¬(4 ≤ p.length ∧ is_alpha p = true)) := by
  have harith : (¬(p.length < 12) ∧ ¬(p.length < 16)) ↔ 16 ≤ p.length := by omega
  simp only [suggestions_base, List.append_eq_nil, ite_nil_eq_nil, ite_ite_nil_eq_nil,
    Bool.not_eq_false, Bool.not_eq_true, harith]
  tauto

lemma excellent_tip_not_mem_base (p : String) :
    excellent_tip ∉ suggestions_base p := by
  intro hmem
  rcases mem_suggestions_base.mp hmem with ⟨-, he⟩ | ⟨-, -, he⟩ | ⟨-, he⟩ | ⟨-, he⟩ |
    ⟨-, he⟩ | ⟨-, he⟩ | ⟨-, he⟩ | ⟨-, he⟩ | ⟨-, he⟩ | ⟨-, he⟩
  · exact ne_len_tip_low (by decide) p.length he
  · exact ne_len_tip_mid (by decide) p.length he
  · exact absurd he (by decide)
  · exact absurd he (by decide)
  · exact absurd he (by decide)
  · exact absurd he (by decide)
  · exact absurd he (by decide)
  · exact absurd he (by decide)
  · exact absurd he (by decide)
  · exact absurd he (by decide)

/-- When any suggestion fired, the result is the fired list plus the three
best-practice tips. -/
lemma get_enhancement_suggestions_of_ne_nil {p : String}
    (hb : suggestions_base p ≠ []) :
    get_enhancement_suggestions p
      = suggestions_base p ++ [bp_tip1, bp_tip2, bp_tip3] := by
  have hlen : 0 < (suggestions_base p).length := List.length_pos.mpr hb
  simp only [get_enhancement_suggestions]
  rw [if_pos hlen, if_neg (by rw [List.length_append]; omega)]

/-! ## Claims C7, C10 -/

/-- C7: the suggestion generator returns the single "excellent password"
affirmation exactly when all of the following hold: length ≥ 16, all four
character classes present, not a common password, no simple pattern, no
3+ repeated characters, and not a pure-alphabetic word of length ≥ 4; in
every other case the affirmation is absent and the list ends with the
three fixed best-practice tips. -/
theorem C7_affirmation_iff (p : String) :
    (get_enhancement_suggestions p = [excellent_tip] ↔
      (16 ≤ p.length ∧
       (identify_char_sets p).uppercase = true ∧
       (identify_char_sets p).lowercase = true ∧
       (identify_char_sets p).digits = true ∧
       (identify_char_sets p).special = true ∧
       is_common p = false ∧
       has_simple_patterns p = false ∧
       has_repeated_chars p = false ∧
       ¬(4 ≤ p.length ∧ is_alpha p = true))) ∧
    (¬(16 ≤ p.length ∧
       (identify_char_sets p).uppercase = true ∧
       (identify_char_sets p).lowercase = true ∧
       (identify_char_sets p).digits = true ∧
       (identify_char_sets p).special = true ∧
       is_common p = false ∧
       has_simple_patterns p = false ∧
       has_repeated_chars p = false ∧
       ¬(4 ≤ p.length ∧ is_alpha p = true)) →
      excellent_tip ∉ get_enhancement_suggestions p ∧
      ∃ pre, get_enhancement_suggestions p = pre ++ [bp_tip1, bp_tip2, bp_tip3]) := by
  by_cases hb : suggestions_base p = []
  · have hc := (suggestions_base_eq_nil_iff p).mp hb
    refine ⟨⟨fun _ => hc, fun _ => ?_⟩, fun hn => absurd hc hn⟩
    simp only [get_enhancement_suggestions, hb]
    rfl
  · have hc : ¬(16 ≤ p.length ∧
        (identify_char_sets p).uppercase = true ∧
        (identify_char_sets p).lowercase = true ∧
        (identify_char_sets p).digits = true ∧
        (identify_char_sets p).special = true ∧
        is_common p = false ∧
        has_simple_patterns p = false ∧
        has_repeated_chars p = false ∧
        ¬(4 ≤ p.length ∧ is_alpha p = true)) :=
      fun h => hb ((suggestions_base_eq_nil_iff p).mpr h)
    have hres := get_enhancement_suggestions_of_ne_nil hb
    constructor
    · constructor
      · intro heq
        exfalso
        rw [hres] at heq
        have hlen := congrArg List.length heq
        rw [List.length_append] at hlen
        simp at hlen
      · intro h
        exact absurd h hc
    · intro _
      refine ⟨?_, suggestions_base p, hres⟩
      rw [hres]
      intro hmem
      rcases List.mem_append.mp hmem with hm | hm
      · exact excellent_tip_not_mem_base p hm
      · revert hm
        decide

/-- Witness for `C7_affirmation_iff`: "Aa1!Aa1!Aa1!Aa1!" (16 characters,
all four classes, no pattern) earns the lone affirmation, while "abc"
fails the conditions, misses the affirmation and ends with the three
best-practice tips. -/
theorem C7_affirmation_iff_witness :
    get_enhancement_suggestions "Aa1!Aa1!Aa1!Aa1!" = [excellent_tip] ∧
    (excellent_tip ∉ get_enhancement_suggestions "abc" ∧
      ∃ pre, get_enhancement_suggestions "abc" = pre ++ [bp_tip1, bp_tip2, bp_tip3]) :=
  ⟨(C7_affirmation_iff "Aa1!Aa1!Aa1!Aa1!").1.mpr (by decide),
   (C7_affirmation_iff "abc").2 (by decide)⟩

/-- C10: the simple-pattern test runs on the lowercased password while
the repeated-character test runs on the original: whenever the lowercase
form has a 3+ run of one character but the original does not (mixed case,
e.g. "AaA"), the −20 pattern-penalty condition and the pattern suggestion
fire, yet the +5 no-repeat bonus condition still holds and no
repeated-character suggestion is emitted. -/
theorem C10_case_mismatch (p : String)
    (h1 : has_triple_repeat (str_lower p).data = true)
    (h2 : has_triple_repeat p.data = false) :
    has_simple_patterns p = true ∧
    has_repeated_chars p = false ∧
    pattern_tip ∈ get_enhancement_suggestions p ∧
    repeat_tip ∉ get_enhancement_suggestions p := by
  have hpat : has_simple_patterns p = true := by
    simp only [has_simple_patterns, h1, Bool.true_or]
  have hrep : has_repeated_chars p = false := by
    unfold has_repeated_chars
    exact h2
  have hbne : suggestions_base p ≠ [] := by
    intro h
    have hc := (suggestions_base_eq_nil_iff p).mp h
    have hfalse := hc.2.2.2.2.2.2.1
    rw [hpat] at hfalse
    cases hfalse
  have hres := get_enhancement_suggestions_of_ne_nil hbne
  refine ⟨hpat, hrep, ?_, ?_⟩
  · rw [hres]
    refine List.mem_append_left _ ?_
    exact mem_suggestions_base.mpr
      (Or.inr (Or.inr (Or.inr (Or.inr (Or.inr (Or.inr (Or.inr
        (Or.inl ⟨hpat, rfl⟩))))))))
  · rw [hres]
    intro hmem
    rcases List.mem_append.mp hmem with hm | hm
    · rcases mem_suggestions_base.mp hm with ⟨-, he⟩ | ⟨-, -, he⟩ | ⟨-, he⟩ | ⟨-, he⟩ |
        ⟨-, he⟩ | ⟨-, he⟩ | ⟨-, he⟩ | ⟨-, he⟩ | ⟨hcond, -⟩ | ⟨-, he⟩
      · exact ne_len_tip_low (by decide) p.length he
      · exact ne_len_tip_mid (by decide) p.length he
      · exact absurd he (by decide)
      · exact absurd he (by decide)
      · exact absurd he (by decide)
      · exact absurd he (by decide)
      · exact absurd he (by decide)
      · exact absurd he (by decide)
      · rw [hrep] at hcond
        cases hcond
      · exact absurd he (by decide)
    · revert hm
      decide

/-- Witness for `C10_case_mismatch` at the password "AaA". -/
theorem C10_case_mismatch_witness :
    has_simple_patterns "AaA" = true ∧
    has_repeated_chars "AaA" = false ∧
    pattern_tip ∈ get_enhancement_suggestions "AaA" ∧
    repeat_tip ∉ get_enhancement_suggestions "AaA" :=
  C10_case_mismatch "AaA" (by decide) (by decide)
